import Mathlib

/-!
Verification of the telemetry decoding and classification subsystem of the
isYafit indoor-bike compatibility tester.

The definitions below are a shallow embedding of the Python modules
src/backend/data_handler.py (flag decoder, packet merge, resistance
tracking, packet buffer) and src/backend/analyze_result.py (compatibility
classifier).  Byte strings are modelled as lists of naturals (each entry a
byte value), Python dicts with string keys as association lists in
insertion order, Python floats as rationals (all scale factors in this
code are exact divisions), and the session-global dictionaries
resistance_tracking and test_results as explicit state records threaded
through the functions.  The one runtime exception reachable inside the
decoder (a TypeError when a resistance change is observed while
resistance_command_pending is set but last_command_type is None) is
modelled with Except, the error value carrying the mutated global state
at the point of the raise.
-/

set_option maxRecDepth 100000

deriving instance DecidableEq for Except

namespace IsYafit

/-! ### Bytes, little-endian integers -/

/-- Value of a byte list read as a little-endian unsigned integer
(Python int.from_bytes with byteorder little). -/
def leNum : List Nat → Nat
  | [] => 0
  | b :: bs => b + 256 * leNum bs

/-- The Python slice data[i:i+w] read little-endian.  A Python slice
clamps at the end of the sequence, hence take/drop. -/
def leSlice (data : List Nat) (i w : Nat) : Nat :=
  leNum ((data.drop i).take w)

/-- Two's-complement reinterpretation of a w-byte unsigned value
(Python int.from_bytes with signed=True). -/
def toSigned (n : Nat) (w : Nat) : Int :=
  if n < 2 ^ (8 * w - 1) then (n : Int) else (n : Int) - 2 ^ (8 * w)

/-- Python (x).to_bytes(2, byteorder=little). -/
def leBytes2 (n : Nat) : List Nat :=
  [n % 256, n / 256 % 256]

/-! ### Python dicts with string keys, in insertion order -/

/-- A decoded field mapping: field kind to numeric value, insertion
ordered, keys unique (Python dict). -/
abbrev Fields := List (String × Rat)

/-- Python d[k] = v on a dict: overwrite in place if the key exists,
else append. -/
def dictInsert (d : Fields) (k : String) (v : Rat) : Fields :=
  if d.any (fun p => p.1 == k) then
    d.map (fun p => if p.1 == k then (k, v) else p)
  else
    d ++ [(k, v)]

/-- Python d.get(k): the value at the first (unique) occurrence of k. -/
def dictGet? (d : Fields) (k : String) : Option Rat :=
  (d.find? (fun p => p.1 == k)).map (fun p => p.2)

/-- Python k in d. -/
def dictHas (d : Fields) (k : String) : Bool :=
  d.any (fun p => p.1 == k)

/-- Python d.update(e): every entry of e written into d in order. -/
def dictUpdate (d e : Fields) : Fields :=
  e.foldl (fun acc p => dictInsert acc p.1 p.2) d

/-- Python d.get(k, False) on a dict of booleans. -/
def dictGetB (d : List (String × Bool)) (k : String) : Bool :=
  ((d.find? (fun p => p.1 == k)).map (fun p => p.2)).getD false

/-! ### Python substring test (the in operator on strings) -/

/-- Character-list version of startswith. -/
def chPre : List Char → List Char → Bool
  | [], _ => true
  | _ :: _, [] => false
  | a :: as, b :: bs => a == b && chPre as bs

/-- Character-list substring occurrence test. -/
def chSub (p : List Char) : List Char → Bool
  | [] => chPre p []
  | b :: bs => chPre p (b :: bs) || chSub p bs

/-- Python pat in s on strings: substring containment. -/
def pyIn (pat s : String) : Bool :=
  chSub pat.data s.data

/-! ### Session state records

resistance_tracking and test_results are module-level dictionaries
created in is_yafit_interactive.py and shared into data_handler.py and
device_test.py.  Only the keys that the embedded code reads or writes
are modelled (expected_resistance and command_sent_time are written by
the driver but never read by the decoder or classifier). -/

/-- The resistance_tracking global dictionary. -/
structure ResistanceTracking where
  last_resistance : Option Int
  resistance_change_detected : Bool
  last_command_type : Option String
  resistance_command_pending : Bool
  deriving DecidableEq

/-- The device_info sub-dictionary of test_results. -/
structure DeviceInfo where
  name : String
  address : String
  services : List String
  deriving DecidableEq

/-- The test_results global dictionary (the Observation Record). -/
structure TestResults where
  device_info : DeviceInfo
  connection_status : Bool
  protocol_type : String
  features_supported : List (String × Bool)
  data_fields_detected : Fields
  control_commands_tested : List (String × Bool)
  sim_mode_support : Bool
  resistance_control : Bool
  power_control : Bool
  compatibility_level : String
  issues_found : List String
  reasons : List String
  deriving DecidableEq

/-- Initial resistance_tracking state (is_yafit_interactive.py). -/
def rt0 : ResistanceTracking :=
  { last_resistance := none
    resistance_change_detected := false
    last_command_type := none
    resistance_command_pending := false }

/-- Initial test_results state (is_yafit_interactive.py). -/
def tr0 : TestResults :=
  { device_info := { name := "", address := "", services := [] }
    connection_status := false
    protocol_type := ""
    features_supported := []
    data_fields_detected := []
    control_commands_tested := []
    sim_mode_support := false
    resistance_control := false
    power_control := false
    compatibility_level := ""
    issues_found := []
    reasons := [] }

/-! ### The flag decoder: process_indoor_bike_data -/

/-- One field block of process_indoor_bike_data: if the presence
condition holds and enough bytes remain at the cursor, decode the field
and advance the cursor; otherwise leave cursor and fields unchanged. -/
def tryField (present : Bool) (w : Nat) (dec : Nat → Rat) (k : String)
    (data : List Nat) (st : Nat × Fields) : Nat × Fields :=
  if present then
    if st.1 + w ≤ data.length then
      (st.1 + w, dictInsert st.2 k (dec (leSlice data st.1 w)))
    else st
  else st

/-- data_handler.py lines 117-146: the resistance-change tracking block,
run when a resistance value has been decoded.  The error case is the
Python TypeError raised by evaluating a substring test on None when a
change is seen while resistance_command_pending is set but
last_command_type is None; the error value is the global state as
mutated up to the raise (resistance_change_detected already set,
last_resistance not yet updated). -/
def trackResistance (resistance : Int) (rt : ResistanceTracking) (tr : TestResults) :
    Except (ResistanceTracking × TestResults) (ResistanceTracking × TestResults) :=
  match rt.last_resistance with
  | none => .ok ({ rt with last_resistance := some resistance }, tr)
  | some prev =>
    if resistance ≠ prev then
      let rt1 := { rt with resistance_change_detected := true }
      if rt1.resistance_command_pending then
        match rt1.last_command_type with
        | none => .error (rt1, tr)
        | some ct =>
          let tr1 :=
            if pyIn "SET_RESISTANCE_LEVEL" ct then
              { tr with resistance_control := true }
            else if pyIn "SET_SIM_PARAMS" ct then
              { tr with sim_mode_support := true }
            else tr
          .ok ({ rt1 with resistance_command_pending := false
                          last_command_type := none
                          last_resistance := some resistance }, tr1)
      else
        .ok ({ rt1 with last_resistance := some resistance }, tr)
    else
      .ok ({ rt with last_resistance := some resistance }, tr)

/-- data_handler.py lines 111-147: the bit-5 resistance field block
(decode guarded by the remaining-length check, then tracking). -/
def resistanceBlock (data : List Nat) (flags : Nat) (st : Nat × Fields)
    (rt : ResistanceTracking) (tr : TestResults) :
    Except (ResistanceTracking × TestResults)
      ((Nat × Fields) × ResistanceTracking × TestResults) :=
  if (flags &&& 0x20) != 0 then
    if st.1 + 2 ≤ data.length then
      let resistance : Int := toSigned (leSlice data st.1 2) 2
      let fields := dictInsert st.2 "resistance" (resistance : Rat)
      match trackResistance resistance rt tr with
      | .error e => .error e
      | .ok (rt1, tr1) => .ok ((st.1 + 2, fields), rt1, tr1)
    else .ok (st, rt, tr)
  else .ok (st, rt, tr)

/-- data_handler.py lines 71-108: the field blocks before the resistance
block (speed, average speed, cadence, average cadence, distance),
starting with the cursor at byte offset 2.  Note speed is present when
flag bit 0 is clear. -/
def decodeHead (data : List Nat) (flags : Nat) : Nat × Fields :=
  let st := ((2 : Nat), ([] : Fields))
  let st := tryField ((flags &&& 0x01) == 0) 2 (fun n => (n : Rat) / 100) "speed" data st
  let st := tryField ((flags &&& 0x02) != 0) 2 (fun n => (n : Rat) / 100) "avg_speed" data st
  let st := tryField ((flags &&& 0x04) != 0) 2 (fun n => (n : Rat) / 2) "cadence" data st
  let st := tryField ((flags &&& 0x08) != 0) 2 (fun n => (n : Rat) / 2) "avg_cadence" data st
  tryField ((flags &&& 0x10) != 0) 3 (fun n => (n : Rat) / 10) "distance" data st

/-- data_handler.py lines 149-199: the field blocks after the resistance
block (power, average power, energy, heart rate, met, elapsed time,
remaining time); returns the final field mapping. -/
def decodeTail (data : List Nat) (flags : Nat) (st : Nat × Fields) : Fields :=
  let st := tryField ((flags &&& 0x40) != 0) 2 (fun n => ((toSigned n 2 : Int) : Rat)) "power" data st
  let st := tryField ((flags &&& 0x80) != 0) 2 (fun n => ((toSigned n 2 : Int) : Rat)) "avg_power" data st
  let st := tryField ((flags &&& 0x100) != 0) 2 (fun n => (n : Rat)) "energy" data st
  let st := tryField ((flags &&& 0x200) != 0) 1 (fun n => (n : Rat)) "heart_rate" data st
  let st := tryField ((flags &&& 0x400) != 0) 2 (fun n => (n : Rat) / 100) "met" data st
  let st := tryField ((flags &&& 0x800) != 0) 2 (fun n => (n : Rat)) "elapsed_time" data st
  let st := tryField ((flags &&& 0x1000) != 0) 2 (fun n => (n : Rat)) "remaining_time" data st
  st.2

/-- data_handler.py lines 59-201: parse an Indoor Bike Data packet,
returning the detected field mapping and the updated global state. -/
def process_indoor_bike_data (data : List Nat) (flags : Nat)
    (rt : ResistanceTracking) (tr : TestResults) :
    Except (ResistanceTracking × TestResults)
      (Fields × ResistanceTracking × TestResults) :=
  match resistanceBlock data flags (decodeHead data flags) rt tr with
  | .error e => .error e
  | .ok (st, rt1, tr1) => .ok (decodeTail data flags st, rt1, tr1)

/-- The field mapping produced by a decode run started from the initial
global state (used to state pure decoding facts). -/
def decodeFields (data : List Nat) (flags : Nat) : Fields :=
  match process_indoor_bike_data data flags rt0 tr0 with
  | .ok (f, _, _) => f
  | .error _ => []

/-! ### Packet merging: can_merge_packets and merge_packet_data -/

/-- data_handler.py lines 21-34: two packets are mergeable iff both have
a flag word and the flag words do not overlap bitwise. -/
def can_merge_packets (flags1 flags2 : Option Nat) : Bool :=
  match flags1, flags2 with
  | some f1, some f2 => !((f1 &&& f2) != 0)
  | _, _ => false

/-- data_handler.py lines 36-57: build the merged record.  The first
packet has its 2-byte flag prefix replaced by the OR of the flag words,
then the second packet beyond its own 2-byte prefix is appended.  The
fields1 and fields2 arguments are accepted and unused, as in the
source. -/
def merge_packet_data (data1 : List Nat) (flags1 : Nat) (fields1 : Fields)
    (data2 : List Nat) (flags2 : Nat) (fields2 : Fields) : List Nat × Nat :=
  let merged_flags := flags1 ||| flags2
  let merged_data := leBytes2 merged_flags ++ data1.drop 2 ++ data2.drop 2
  (merged_data, merged_flags)

/-! ### The merge buffer: finalize_packet_processing and
cleanup_packet_buffer -/

/-- The packet_buffer global dictionary of data_handler.py. -/
structure PacketBuffer where
  data : Option (List Nat)
  flags : Option Nat
  detected_fields : Fields
  deriving DecidableEq

/-- The empty packet buffer (initial value, and the value stored after
every clear). -/
def emptyPacketBuffer : PacketBuffer :=
  { data := none, flags := none, detected_fields := [] }

/-- data_handler.py lines 301-308: fold an emitted sample into
test_results.data_fields_detected. -/
def finalize_packet_processing (detected_fields : Fields) (tr : TestResults) : TestResults :=
  { tr with data_fields_detected := dictUpdate tr.data_fields_detected detected_fields }

/-- data_handler.py lines 330-344: on teardown, if a packet is buffered,
finalize its decoded fields and clear the buffer. -/
def cleanup_packet_buffer (pb : PacketBuffer) (tr : TestResults) : PacketBuffer × TestResults :=
  if pb.data ≠ none then
    (emptyPacketBuffer, finalize_packet_processing pb.detected_fields tr)
  else (pb, tr)

/-! ### The compatibility classifier: analyze_test_results -/

/-- Python str.lower, character by character. -/
def strLower (s : String) : String :=
  String.mk (s.data.map Char.toLower)

/-- The custom vendor protocol names (analyze_result.py line 94). -/
def customProtocols : List String :=
  ["MOBI (커스텀)", "REBORN (커스텀)", "TACX (커스텀)"]

/-- The standard protocol names (analyze_result.py line 100). -/
def standardProtocols : List String :=
  ["FTMS (표준)", "CSC (표준)"]

/-- The verdict strings analyze_test_results can write into
compatibility_level. -/
def verdictLevels : List String :=
  ["불가능", "호환 확인 현재 불가", "부분 호환", "부분 호환 (수정 후 완벽 호환)", "완벽 호환"]

/-- The anomaly text the classifier searches for inside each
issues_found entry (analyze_result.py line 132). -/
def resistanceAnomalyText : String :=
  "Resistance changed without any resistance-related command"

/-- analyze_result.py lines 31-152: the classifier body run on a
non-empty record, producing the record as left by the call (the Python
function mutates the dict in place). -/
def analyzeRecord (r : TestResults) : TestResults :=
  if !r.connection_status then
    { r with compatibility_level := "불가능"
             reasons := ["기기 연결이 실패했습니다. 블루투스 설정을 확인하세요."] }
  else
    let services := r.device_info.services
    let has_csc_service := services.any (fun s =>
      pyIn "1816" (strLower s) || pyIn "cycling_speed_and_cadence" (strLower s))
    let has_csc_features :=
      dictGetB r.features_supported "CSC Measurement" ||
      dictGetB r.features_supported "CSC Feature"
    let has_csc_sensor := has_csc_service || has_csc_features
    let has_essential_data_fields :=
      dictHas r.data_fields_detected "speed" && dictHas r.data_fields_detected "cadence"
    if !(has_csc_sensor || has_essential_data_fields) then
      { r with compatibility_level := "불가능"
               reasons := ["필수 정보인 속도/캐던스 센서 또는 데이터가 발견되지 않았습니다."] }
    else if customProtocols.contains r.protocol_type then
      { r with compatibility_level := "호환 확인 현재 불가"
               reasons := [r.protocol_type ++ " 프로토콜은 현재 호환성 확인이 불가능합니다."] }
    else if !(standardProtocols.contains r.protocol_type) then
      { r with compatibility_level := "불가능"
               reasons := ["지원되지 않는 프로토콜입니다."] }
    else if r.protocol_type == "CSC (표준)" then
      { r with compatibility_level := "부분 호환"
               reasons := ["CSC 프로토콜은 속도/캐던스 데이터만 제공합니다."] }
    else
      let has_speed_and_cadence :=
        dictHas r.data_fields_detected "speed" && dictHas r.data_fields_detected "cadence"
      let sim_working := r.sim_mode_support
      if has_speed_and_cadence && sim_working then
        { r with compatibility_level := "완벽 호환"
                 reasons := ["속도와 캐던스 데이터가 모두 있고, 시뮬레이션 모드가 정상 작동합니다."] }
      else if has_speed_and_cadence && !sim_working then
        if r.issues_found.any (fun issue => pyIn resistanceAnomalyText issue) then
          { r with compatibility_level := "부분 호환 (수정 후 완벽 호환)"
                   reasons := ["저항이 관련 명령어 없이 자동으로 변합니다. 설정 수정 후 완벽 호환 가능합니다."] }
        else
          { r with compatibility_level := "부분 호환"
                   reasons := ["속도와 캐던스 데이터는 모두 있지만, 시뮬레이션 모드는 지원하지 않거나 다른 문제가 있을 수 있습니다."] }
      else if !has_speed_and_cadence then
        { r with compatibility_level := "불가능"
                 reasons := ["필수 데이터인 속도와 캐던스 중 하나 또는 둘 다 감지되지 않았습니다."] }
      else
        { r with compatibility_level := "불가능"
                 reasons := ["기본 요구사항을 만족하지 않습니다."] }

/-- analyze_result.py lines 4-162 as seen by the caller.  The Python
function receives the shared test_results dict; when that dict is falsy
(None or empty) the function rebinds its local name to a fresh default
dict and returns, so the caller-visible record is unchanged.  none
models the empty record, some r a non-empty one; the result is the
caller-visible record after the call. -/
def analyze_test_results : Option TestResults → Option TestResults
  | none => none
  | some r => some (analyzeRecord r)

/-! ### Claim theorems -/

/-- Claim C1.  The merge of two non-overlapping-flag packets does not
decode to the union of the individual decodes.  Here F1 = 0x0000 (speed
only, flag bit 0 clear) and F2 = 0x0004 (speed and cadence) are
mergeable, the second decode has cadence 50, but re-parsing the merged
record reads the second packet speed bytes as the cadence field and
yields cadence 500. -/
theorem c1_merged_reparse_diverges_from_union :
    can_merge_packets (some 0x0000) (some 0x0004) = true ∧
    merge_packet_data [0x00, 0x00, 0x10, 0x27] 0x0000 [("speed", 100)]
        [0x04, 0x00, 0xE8, 0x03, 0x64, 0x00] 0x0004 [("speed", 10), ("cadence", 50)] =
      ([0x04, 0x00, 0x10, 0x27, 0xE8, 0x03, 0x64, 0x00], 0x0004) ∧
    decodeFields [0x00, 0x00, 0x10, 0x27] 0x0000 = [("speed", 100)] ∧
    decodeFields [0x04, 0x00, 0xE8, 0x03, 0x64, 0x00] 0x0004 =
      [("speed", 10), ("cadence", 50)] ∧
    decodeFields [0x04, 0x00, 0x10, 0x27, 0xE8, 0x03, 0x64, 0x00] 0x0004 =
      [("speed", 100), ("cadence", 500)] ∧
    dictGet? (decodeFields [0x04, 0x00, 0x10, 0x27, 0xE8, 0x03, 0x64, 0x00] 0x0004) "cadence" ≠
      dictGet? (decodeFields [0x04, 0x00, 0xE8, 0x03, 0x64, 0x00] 0x0004) "cadence" := by
  with_unfolding_all decide

/-- Claim C2 counterexample.  Flag word 0x0004 has bit 0 clear, so the
decoder reads an instantaneous speed field first: the two payload bytes
0x0064 become speed 1.0 km/h, no bytes remain for the flagged cadence
field, and the result is not the claimed cadence-only mapping. -/
theorem c2_counterexample_decode_flags4 :
    decodeFields [0x04, 0x00, 0x64, 0x00] 0x0004 = [("speed", 1)] ∧
    dictGet? (decodeFields [0x04, 0x00, 0x64, 0x00] 0x0004) "cadence" = none ∧
    decodeFields [0x04, 0x00, 0x64, 0x00] 0x0004 ≠ [("cadence", 50)] := by
  with_unfolding_all decide

/-- Claim C2 amended.  Decoding flag word 0x0004 with raw bytes
04 00 64 00 returns exactly the instantaneous speed field with value
1.0, leaving the global state untouched. -/
theorem c2_amended_decode_flags4 :
    process_indoor_bike_data [0x04, 0x00, 0x64, 0x00] 0x0004 rt0 tr0 =
      .ok ([("speed", 1)], rt0, tr0) := by
  with_unfolding_all decide

/-- A resistance-tracking state with a recorded last resistance of 5 and
no pending command (correlator in IDLE). -/
def rtLast5 : ResistanceTracking :=
  { last_resistance := some 5
    resistance_change_detected := false
    last_command_type := none
    resistance_command_pending := false }

/-- Claim C3.  Observing resistance 8 after last recorded resistance 5
with no pending command leaves test_results entirely unchanged: the
warning is only written to the log and no anomaly string is appended to
issues_found (which the classifier nevertheless searches for). -/
theorem c3_idle_change_appends_no_anomaly :
    process_indoor_bike_data [0x21, 0x00, 0x08, 0x00] 0x21 rtLast5 tr0 =
      .ok ([("resistance", 8)],
           { rtLast5 with last_resistance := some 8, resistance_change_detected := true },
           tr0) ∧
    tr0.issues_found = [] := by
  with_unfolding_all decide

/-- Claim C5 counterexample.  A single decode of a packet carrying a
resistance field mutates the resistance-tracking state: last_resistance
goes from none to 5, so the decoder is not side-effect free. -/
theorem c5_counterexample_decoder_mutates_state :
    process_indoor_bike_data [0x21, 0x00, 0x05, 0x00] 0x21 rt0 tr0 =
      .ok ([("resistance", 5)], { rt0 with last_resistance := some 5 }, tr0) ∧
    ({ rt0 with last_resistance := some 5 } : ResistanceTracking) ≠ rt0 := by
  with_unfolding_all decide

/-- Claim C5 amended.  Whenever flag bit 5 is clear (no resistance field
decoded) the decoder is side-effect free: it succeeds and returns the
resistance-tracking state and test_results unchanged. -/
theorem c5_amended_pure_when_bit5_clear (data : List Nat) (flags : Nat)
    (rt : ResistanceTracking) (tr : TestResults) (h : flags &&& 0x20 = 0) :
    ∃ f, process_indoor_bike_data data flags rt tr = .ok (f, rt, tr) := by
  unfold process_indoor_bike_data resistanceBlock
  simp [h]

/-- Witness for the amended Claim C5 at flags = 0. -/
theorem c5_amended_pure_when_bit5_clear_witness :
    (0 : Nat) &&& 0x20 = 0 ∧
    ∃ f, process_indoor_bike_data [] 0 rt0 tr0 = .ok (f, rt0, tr0) :=
  ⟨by decide, c5_amended_pure_when_bit5_clear [] 0 rt0 tr0 (by decide)⟩

/-- Claim C4.  On the empty record the classifier returns with the
caller-visible record unchanged — no verdict and no reasons are ever
written, because the Python code rebinds its local name to a fresh
default dict instead of updating the shared one.  On every non-empty
record, by contrast, exactly one verdict from the emitted enumeration is
written together with a non-empty reasons list. -/
theorem c4_classifier_empty_record_slip :
    analyze_test_results none = none ∧
    ∀ r : TestResults,
      (analyzeRecord r).compatibility_level ∈ verdictLevels ∧
      (analyzeRecord r).reasons ≠ [] := by
  refine ⟨rfl, fun r => ?_⟩
  simp only [analyzeRecord]
  repeat' split
  all_goals simp [verdictLevels]

/-- Claim C6.  With a resistance-related command pending and an observed
resistance differing from the last recorded one, exactly the matching
capability flag is set (resistance_control for SET_RESISTANCE_LEVEL,
sim_mode_support for SET_SIM_PARAMS, neither for SET_TARGET_POWER), the
pending state is cleared, the new value is stored, and no anomaly is
recorded. -/
theorem c6_pending_command_sets_matching_flag
    (rt : ResistanceTracking) (tr : TestResults) (p r : Int) (k : String)
    (hp : rt.resistance_command_pending = true)
    (hk : rt.last_command_type = some k)
    (hl : rt.last_resistance = some p)
    (hne : r ≠ p)
    (hkind : k = "SET_RESISTANCE_LEVEL" ∨ k = "SET_SIM_PARAMS" ∨ k = "SET_TARGET_POWER") :
    trackResistance r rt tr =
      .ok ({ rt with resistance_change_detected := true
                     resistance_command_pending := false
                     last_command_type := none
                     last_resistance := some r },
           if k = "SET_RESISTANCE_LEVEL" then { tr with resistance_control := true }
           else if k = "SET_SIM_PARAMS" then { tr with sim_mode_support := true }
           else tr) ∧
    (if k = "SET_RESISTANCE_LEVEL" then { tr with resistance_control := true }
     else if k = "SET_SIM_PARAMS" then { tr with sim_mode_support := true }
     else tr).issues_found = tr.issues_found := by
  have e1 : pyIn "SET_RESISTANCE_LEVEL" "SET_RESISTANCE_LEVEL" = true := by
    with_unfolding_all decide
  have e2 : pyIn "SET_RESISTANCE_LEVEL" "SET_SIM_PARAMS" = false := by
    with_unfolding_all decide
  have e3 : pyIn "SET_SIM_PARAMS" "SET_SIM_PARAMS" = true := by
    with_unfolding_all decide
  have e4 : pyIn "SET_RESISTANCE_LEVEL" "SET_TARGET_POWER" = false := by
    with_unfolding_all decide
  have e5 : pyIn "SET_SIM_PARAMS" "SET_TARGET_POWER" = false := by
    with_unfolding_all decide
  rcases hkind with h | h | h <;> subst h <;>
    refine ⟨?_, ?_⟩ <;>
    simp [trackResistance, hp, hk, hl, hne, e1, e2, e3, e4, e5]

/-- The ResistanceTracking state after a successful SET_RESISTANCE_LEVEL
acknowledgement with last recorded resistance 5, used as the Claim C6
witness input. -/
def rtPend : ResistanceTracking :=
  { last_resistance := some 5
    resistance_change_detected := false
    last_command_type := some "SET_RESISTANCE_LEVEL"
    resistance_command_pending := true }

/-- Witness for Claim C6: SET_RESISTANCE_LEVEL pending, resistance 5 to
8. -/
theorem c6_pending_command_sets_matching_flag_witness :
    trackResistance 8 rtPend tr0 =
      .ok ({ rtPend with resistance_change_detected := true
                         resistance_command_pending := false
                         last_command_type := none
                         last_resistance := some 8 },
           if "SET_RESISTANCE_LEVEL" = "SET_RESISTANCE_LEVEL" then
             { tr0 with resistance_control := true }
           else if "SET_RESISTANCE_LEVEL" = "SET_SIM_PARAMS" then
             { tr0 with sim_mode_support := true }
           else tr0) ∧
    (if "SET_RESISTANCE_LEVEL" = "SET_RESISTANCE_LEVEL" then
       { tr0 with resistance_control := true }
     else if "SET_RESISTANCE_LEVEL" = "SET_SIM_PARAMS" then
       { tr0 with sim_mode_support := true }
     else tr0).issues_found = tr0.issues_found :=
  c6_pending_command_sets_matching_flag rtPend tr0 5 8 "SET_RESISTANCE_LEVEL"
    rfl rfl rfl (by decide) (Or.inl rfl)

/-- Claim C7.  For a connected record on the standard full protocol with
both speed and cadence detected: sim_mode_support gives the full
verdict; otherwise the verdict is partial-fixable exactly when an
issues_found entry contains the resistance-anomaly text, and partial
otherwise. -/
theorem c7_ftms_both_fields_verdict (r : TestResults)
    (hc : r.connection_status = true)
    (hp : r.protocol_type = "FTMS (표준)")
    (hs : dictHas r.data_fields_detected "speed" = true)
    (hcad : dictHas r.data_fields_detected "cadence" = true) :
    (analyzeRecord r).compatibility_level =
      if r.sim_mode_support then "완벽 호환"
      else if r.issues_found.any (fun issue => pyIn resistanceAnomalyText issue) then
        "부분 호환 (수정 후 완벽 호환)"
      else "부분 호환" := by
  have hcust : "FTMS (표준)" ∉ customProtocols := by with_unfolding_all decide
  have hstd : "FTMS (표준)" ∈ standardProtocols := by with_unfolding_all decide
  have hne : ("FTMS (표준)" : String) ≠ "CSC (표준)" := by decide
  cases hsim : r.sim_mode_support <;>
    simp [analyzeRecord, hc, hp, hs, hcad, hcust, hstd, hne, hsim]
  split <;> simp

/-- A connected FTMS record with speed and cadence detected and
simulation mode confirmed, used as the Claim C7 witness input. -/
def rFtms : TestResults :=
  { tr0 with connection_status := true
             protocol_type := "FTMS (표준)"
             data_fields_detected := [("speed", 1), ("cadence", 2)]
             sim_mode_support := true }

/-- Witness for Claim C7 on a concrete full-compatibility record. -/
theorem c7_ftms_both_fields_verdict_witness :
    (analyzeRecord rFtms).compatibility_level =
      if rFtms.sim_mode_support then "완벽 호환"
      else if rFtms.issues_found.any (fun issue => pyIn resistanceAnomalyText issue) then
        "부분 호환 (수정 후 완벽 호환)"
      else "부분 호환" :=
  c7_ftms_both_fields_verdict rFtms rfl rfl (by with_unfolding_all decide)
    (by with_unfolding_all decide)

/-! ### Association list lemmas supporting Claim C8 -/

theorem find?_none_of_any_false (d : Fields) (k : String)
    (h : d.any (fun p => p.1 == k) = false) :
    d.find? (fun p => p.1 == k) = none := by
  induction d with
  | nil => rfl
  | cons p rest ih =>
    simp only [List.any_cons, Bool.or_eq_false_iff] at h
    simp [List.find?, h.1, ih h.2]

theorem find?_append_of_none (d e : Fields) (pred : String × Rat → Bool)
    (h : d.find? pred = none) :
    (d ++ e).find? pred = e.find? pred := by
  induction d with
  | nil => rfl
  | cons p rest ih =>
    by_cases hp : pred p = true
    · simp [List.find?, hp] at h
    · simp only [Bool.not_eq_true] at hp
      simp only [List.find?, hp] at h
      simp [List.find?, hp, ih h]

theorem find?_map_replace_self (d : Fields) (k : String) (v : Rat)
    (h : d.any (fun p => p.1 == k) = true) :
    (d.map (fun p => if p.1 == k then (k, v) else p)).find? (fun p => p.1 == k) =
      some (k, v) := by
  induction d with
  | nil => simp at h
  | cons p rest ih =>
    rw [List.map_cons]
    by_cases hpk : (p.1 == k) = true
    · rw [if_pos hpk, List.find?_cons_of_pos (p := fun x : String × Rat => x.1 == k) _ (by simp)]
    · simp only [Bool.not_eq_true] at hpk
      simp only [List.any_cons, hpk, Bool.false_or] at h
      rw [if_neg (by simp [hpk]),
        List.find?_cons_of_neg (p := fun x : String × Rat => x.1 == k) _ (by simp [hpk])]
      exact ih h

theorem find?_map_replace_ne (d : Fields) (k : String) (v : Rat) (q : String)
    (hne : q ≠ k) :
    (d.map (fun p => if p.1 == k then (k, v) else p)).find? (fun p => p.1 == q) =
      d.find? (fun p => p.1 == q) := by
  induction d with
  | nil => rfl
  | cons p rest ih =>
    rw [List.map_cons]
    by_cases hpk : (p.1 == k) = true
    · have hp1 : p.1 = k := eq_of_beq hpk
      have h1 : (k == q) = false := by
        simp only [beq_eq_false_iff_ne]
        intro hkq
        exact hne hkq.symm
      have h2 : (p.1 == q) = false := by rw [hp1]; exact h1
      rw [if_pos hpk, List.find?_cons_of_neg (p := fun x : String × Rat => x.1 == q) _ (by simp [h1]),
        List.find?_cons_of_neg (p := fun x : String × Rat => x.1 == q) _ (by simp [h2])]
      exact ih
    · simp only [Bool.not_eq_true] at hpk
      by_cases hpq : (p.1 == q) = true
      · rw [if_neg (by simp [hpk]),
          List.find?_cons_of_pos (p := fun x : String × Rat => x.1 == q) _ (by simp [hpq]),
          List.find?_cons_of_pos (p := fun x : String × Rat => x.1 == q) _ (by simp [hpq])]
      · simp only [Bool.not_eq_true] at hpq
        rw [if_neg (by simp [hpk]),
          List.find?_cons_of_neg (p := fun x : String × Rat => x.1 == q) _ (by simp [hpq]),
          List.find?_cons_of_neg (p := fun x : String × Rat => x.1 == q) _ (by simp [hpq])]
        exact ih

theorem dictGet?_dictInsert_self (d : Fields) (k : String) (v : Rat) :
    dictGet? (dictInsert d k v) k = some v := by
  unfold dictInsert dictGet?
  by_cases h : d.any (fun p => p.1 == k) = true
  · simp only [h, if_true]
    rw [find?_map_replace_self d k v h]
    rfl
  · simp only [Bool.not_eq_true] at h
    simp only [h, Bool.false_eq_true, if_false]
    rw [find?_append_of_none _ _ _ (find?_none_of_any_false d k h)]
    simp [List.find?]

theorem dictGet?_dictInsert_ne (d : Fields) (k : String) (v : Rat) (q : String)
    (hne : q ≠ k) :
    dictGet? (dictInsert d k v) q = dictGet? d q := by
  unfold dictInsert dictGet?
  by_cases h : d.any (fun p => p.1 == k) = true
  · simp only [h, if_true]
    rw [find?_map_replace_ne d k v q hne]
  · simp only [Bool.not_eq_true] at h
    simp only [h, Bool.false_eq_true, if_false]
    by_cases hd : d.find? (fun p => p.1 == q) = none
    · rw [find?_append_of_none _ _ _ hd, hd]
      have : (k == q) = false := by
        simp [beq_eq_false_iff_ne]
        intro hkq
        exact hne hkq.symm
      simp [List.find?, this]
    · obtain ⟨p, hp⟩ := Option.ne_none_iff_exists.mp hd
      rw [← hp]
      rw [List.find?_append]
      rw [← hp]
      rfl

theorem dictGet?_dictUpdate_not_mem (d e : Fields) (k : String)
    (h : ∀ p ∈ e, p.1 ≠ k) :
    dictGet? (dictUpdate d e) k = dictGet? d k := by
  induction e generalizing d with
  | nil => rfl
  | cons p rest ih =>
    have h1 : p.1 ≠ k := h p (by simp)
    have h2 : ∀ q ∈ rest, q.1 ≠ k := fun q hq => h q (by simp [hq])
    show dictGet? (dictUpdate (dictInsert d p.1 p.2) rest) k = dictGet? d k
    rw [ih _ h2, dictGet?_dictInsert_ne _ _ _ _ (fun hk => h1 hk.symm)]

theorem dictGet?_dictUpdate_mem (d e : Fields) (k : String) (v : Rat)
    (hnd : (e.map Prod.fst).Nodup)
    (h : dictGet? e k = some v) :
    dictGet? (dictUpdate d e) k = some v := by
  induction e generalizing d with
  | nil => simp [dictGet?, List.find?] at h
  | cons p rest ih =>
    simp only [List.map_cons, List.nodup_cons] at hnd
    by_cases hpk : (p.1 == k) = true
    · have hp1 : p.1 = k := by exact_mod_cast eq_of_beq hpk
      have hv : v = p.2 := by
        unfold dictGet? at h
        simp [List.find?, hpk] at h
        exact h.symm
      have hrest : ∀ q ∈ rest, q.1 ≠ k := by
        intro q hq hk
        exact hnd.1 (hp1 ▸ hk ▸ List.mem_map_of_mem Prod.fst hq)
      show dictGet? (dictUpdate (dictInsert d p.1 p.2) rest) k = some v
      rw [dictGet?_dictUpdate_not_mem _ _ _ hrest, hp1, hv,
        dictGet?_dictInsert_self]
    · have h2 : dictGet? rest k = some v := by
        unfold dictGet? at h ⊢
        simpa [List.find?, hpk] using h
      exact ih _ hnd.2 h2

/-- Claim C8.  On teardown with a non-empty buffer, the buffered decoded
fields are folded into the detected-field mapping via dict update and
the buffer is cleared; every buffered field survives into the final
mapping with its value. -/
theorem c8_cleanup_flushes_buffer (pb : PacketBuffer) (tr : TestResults)
    (h : pb.data ≠ none) :
    cleanup_packet_buffer pb tr =
      (emptyPacketBuffer,
       { tr with data_fields_detected :=
           dictUpdate tr.data_fields_detected pb.detected_fields }) ∧
    ∀ k v, (pb.detected_fields.map Prod.fst).Nodup →
      dictGet? pb.detected_fields k = some v →
      dictGet? ((cleanup_packet_buffer pb tr).2).data_fields_detected k = some v := by
  have h1 : cleanup_packet_buffer pb tr =
      (emptyPacketBuffer,
       { tr with data_fields_detected :=
           dictUpdate tr.data_fields_detected pb.detected_fields }) := by
    simp [cleanup_packet_buffer, h, finalize_packet_processing]
  refine ⟨h1, fun k v hnd hget => ?_⟩
  rw [h1]
  exact dictGet?_dictUpdate_mem _ _ _ _ hnd hget

/-- A buffer holding one undecoded-suffix sample, used as the Claim C8
witness input. -/
def pbW : PacketBuffer :=
  { data := some [0x21, 0x00, 0x08, 0x00]
    flags := some 0x21
    detected_fields := [("resistance", 8)] }

/-- Witness for Claim C8 on a concrete buffered packet. -/
theorem c8_cleanup_flushes_buffer_witness :
    cleanup_packet_buffer pbW tr0 =
      (emptyPacketBuffer,
       { tr0 with data_fields_detected :=
           dictUpdate tr0.data_fields_detected pbW.detected_fields }) :=
  (c8_cleanup_flushes_buffer pbW tr0 (by with_unfolding_all decide)).1

/-- Claim C9.  A flagged field whose width exceeds the remaining bytes
is skipped with the cursor unmoved (the decode state is returned
unchanged, so every later field is attempted from the same offset); and
end to end, decoding flags 0x0211 over a 4-byte packet skips the 3-byte
distance field for lack of bytes yet still reads the 1-byte heart-rate
field from the same offset 2, without any error. -/
theorem c9_truncated_field_skipped_without_advance :
    (∀ (w : Nat) (dec : Nat → Rat) (k : String) (data : List Nat) (st : Nat × Fields),
        data.length < st.1 + w → tryField true w dec k data st = st) ∧
    process_indoor_bike_data [0x11, 0x02, 0xAA, 0xBB] 0x0211 rt0 tr0 =
      .ok ([("heart_rate", 170)], rt0, tr0) := by
  constructor
  · intro w dec k data st h
    simp [tryField, Nat.not_le.mpr h]
  · with_unfolding_all decide

/-- Witness for Claim C9: a 2-byte field at cursor 2 of an empty byte
list is skipped. -/
theorem c9_truncated_field_skipped_without_advance_witness :
    ([] : List Nat).length < 2 + 2 ∧
    tryField true 2 (fun n => (n : Rat)) "x" [] (2, []) = (2, []) :=
  ⟨by decide,
   c9_truncated_field_skipped_without_advance.1 2 (fun n => (n : Rat)) "x" [] (2, [])
     (by decide)⟩

/-- trackResistance only raises when a change is observed while a
command is pending with no recorded command kind; under the wiring
invariant it always succeeds. -/
theorem trackResistance_isOk (r : Int) (rt : ResistanceTracking) (tr : TestResults)
    (hwf : rt.resistance_command_pending = true → rt.last_command_type ≠ none) :
    ∃ o, trackResistance r rt tr = .ok o := by
  unfold trackResistance
  cases hl : rt.last_resistance with
  | none => exact ⟨_, rfl⟩
  | some prev =>
    by_cases hne : r ≠ prev
    · by_cases hp : rt.resistance_command_pending = true
      · cases hk : rt.last_command_type with
        | none => exact absurd hk (hwf hp)
        | some ct => simp [hne, hp, hk]
      · simp only [Bool.not_eq_true] at hp
        simp [hne, hp]
    · simp [hne]

/-- Claim C10.  For every byte list, flag word and well-formed tracking
state (a pending command always has a recorded kind, the invariant all
writers maintain), the decoder succeeds: every field read is behind a
remaining-length guard, so no input — including lists shorter than two
bytes — makes it fail. -/
theorem c10_decoder_total_on_wf_state (data : List Nat) (flags : Nat)
    (rt : ResistanceTracking) (tr : TestResults)
    (hwf : rt.resistance_command_pending = true → rt.last_command_type ≠ none) :
    ∃ out, process_indoor_bike_data data flags rt tr = .ok out := by
  have hb : ∃ o, resistanceBlock data flags (decodeHead data flags) rt tr = .ok o := by
    unfold resistanceBlock
    split
    · split
      · obtain ⟨⟨rt1, tr1⟩, ho⟩ :=
          trackResistance_isOk
            (toSigned (leSlice data (decodeHead data flags).1 2) 2) rt tr hwf
        simp only [ho]
        exact ⟨_, rfl⟩
      · exact ⟨_, rfl⟩
    · exact ⟨_, rfl⟩
  obtain ⟨⟨st, rt1, tr1⟩, ho⟩ := hb
  unfold process_indoor_bike_data
  rw [ho]
  exact ⟨_, rfl⟩

/-- Witness for Claim C10 on an empty byte list from the initial
state. -/
theorem c10_decoder_total_on_wf_state_witness :
    ∃ out, process_indoor_bike_data [] 0 rt0 tr0 = .ok out :=
  c10_decoder_total_on_wf_state [] 0 rt0 tr0 (by with_unfolding_all decide)

end IsYafit
